import Mathlib

/-!
Shallow embedding of the chat server in `src/server.py` (class `ChatServer`).

Python dictionaries (`users_db`, `groups_db`, `offline_messages`, `clients`)
are modelled as insertion-ordered association lists; Python sets (the per-user
friend files written by `save_friends`) as duplicate-free insertion lists;
sockets as natural-number transport identifiers; the ambient wall clock
(`datetime.datetime.now().isoformat()`) as an explicit `now : Nat` parameter.
Each `handle_*` method of `ChatServer` becomes a pure function from the server
state and the frame fields to the list of `send_json` calls it performs and
the updated state.
-/

namespace ChatApp

/-- A registered user record: the JSON object a client sends as
`message['data']` in a REGISTER frame, stored verbatim in `users_db` by
`handle_register`.  The server itself reads the `name` and `password` keys;
all remaining profile keys are kept in `extra`. -/
structure UserData where
  name : String
  password : String
  extra : List (String × String)
  deriving DecidableEq, Repr

/-- One entry of `groups_db`: `handle_create_group` stores
`admin`, `members`, `description` and `created_at`. -/
structure Group where
  admin : String
  members : List String
  description : String
  createdAt : Nat
  deriving DecidableEq, Repr

/-- Association-list lookup, modelling Python `d[k]` / `k in d`. -/
def lookupA {α : Type} (m : List (String × α)) (k : String) : Option α :=
  match m with
  | [] => none
  | (k2, v) :: rest => if k2 = k then some v else lookupA rest k

/-- Association-list update, modelling Python `d[k] = v` (insertion order is
preserved for existing keys, new keys go to the end). -/
def insertA {α : Type} (m : List (String × α)) (k : String) (v : α) : List (String × α) :=
  match m with
  | [] => [(k, v)]
  | (k2, v2) :: rest => if k2 = k then (k2, v) :: rest else (k2, v2) :: insertA rest k v

/-- Association-list removal, modelling Python `del d[k]`. -/
def eraseA {α : Type} (m : List (String × α)) (k : String) : List (String × α) :=
  match m with
  | [] => []
  | (k2, v2) :: rest => if k2 = k then rest else (k2, v2) :: eraseA rest k

/-- Python `set.add` on a set represented as a duplicate-free list. -/
def setAdd (l : List String) (x : String) : List String :=
  if x ∈ l then l else l ++ [x]

/-- Python `set.discard` on a set represented as a list. -/
def setDiscard (l : List String) (x : String) : List String :=
  l.filter (fun y => y ≠ x)

/-- Payload objects built by the server and either written to a socket with
`send_json` or appended to `offline_messages` by `store_offline_message`.
Each constructor mirrors one dictionary literal in `server.py`; the
`...Offline` variants carry the extra keys (`sender_info`, the
`is_friend_request` / `is_file` flags) that the offline-path literals add.
`sender_info` fields are `Option UserData` because the source uses
`self.users_db.get(from_user, {})`. -/
inductive Payload where
  | registerError (message : String)
  | registerSuccess (groups : List String)
  | loginError (message : String)
  | loginSuccess (userInfo : UserData) (groups : List String)
  | allUsersResponse (users : List (String × UserData))
  | friendRequestError (message : String)
  | friendRequestNote (fromU : String) (senderInfo : Option UserData)
  | friendRequestNoteOffline (fromU : String) (senderInfo : Option UserData)
  | friendRequestAccepted (fromU : String)
  | friendRequestDeclined (fromU : String)
  | friendAdded (friend : String)
  | messageError (reason : String)
  | privateMsg (fromU msg : String) (timestamp : Nat)
  | privateMsgOffline (fromU msg : String) (timestamp : Nat) (senderInfo : Option UserData)
  | groupMsg (fromU groupName msg : String) (timestamp : Nat)
  | mediaMsg (fromU filename filedata : String) (timestamp : Nat)
  | mediaMsgOffline (fromU filename filedata : String) (timestamp : Nat) (senderInfo : Option UserData)
  | groupMediaMsg (fromU groupName filename filedata : String) (timestamp : Nat)
  | createGroupError (message : String)
  | createGroupSuccess (groupName : String)
  | groupInviteError (message : String)
  | groupInviteNote (fromU groupName : String) (senderInfo : Option UserData)
  | groupInviteNoteOffline (fromU groupName : String) (senderInfo : Option UserData)
  | groupInviteAccepted (fromU groupName : String)
  | groupInviteDeclined (fromU groupName : String)
  | groupJoinSuccess (groupName : String)
  | joinGroupError (message : String)
  | leaveGroupError (message : String)
  | leaveGroupSuccess (groupName : String)
  | unfriendSuccess (unfriendedUser : String)
  | unfriendedBy (fromU : String)
  | pong
  deriving DecidableEq, Repr

/-- An entry of a user's offline queue: `store_offline_message` stamps the
payload dictionary with `message['timestamp'] = now` before appending it. -/
structure Stored where
  payload : Payload
  timestamp : Nat
  deriving DecidableEq, Repr

/-- A frame written to a socket: either a single payload object or the
`OFFLINE_MESSAGES` batch built by `send_offline_messages`. -/
inductive Wire where
  | plain (p : Payload)
  | offlineMessages (messages : List Stored)
  deriving DecidableEq, Repr

/-- One observable effect of a handler: a `send_json(sock, obj)` call. -/
inductive Action where
  | send (dest : Nat) (w : Wire)
  deriving DecidableEq, Repr

/-- Destination socket of an action. -/
def Action.dest : Action → Nat
  | .send d _ => d

/-- The mutable state of `ChatServer`: `clients` (handle → socket),
`users_db`, `groups_db`, `offline_messages`, and the per-user friend files
maintained by `load_friends` / `save_friends`. -/
structure ServerState where
  clients : List (String × Nat)
  usersDb : List (String × UserData)
  groupsDb : List (String × Group)
  offline : List (String × List Stored)
  friendFiles : List (String × List String)
  deriving DecidableEq, Repr

/-- A freshly started server with no data files on disk. -/
def initialState : ServerState :=
  { clients := [], usersDb := [], groupsDb := [], offline := [], friendFiles := [] }

/-- `ChatServer.load_friends`: the stored friend set of a user, the empty set
when no friend file exists. -/
def loadFriends (st : ServerState) (username : String) : List String :=
  (lookupA st.friendFiles username).getD []

/-- `ChatServer.add_friend_relationship`: load both friend sets, add each
user to the other's set, save both. -/
def addFriendRelationship (st : ServerState) (user1 user2 : String) : ServerState :=
  let f1 := setAdd (loadFriends st user1) user2
  let f2 := setAdd (loadFriends st user2) user1
  { st with friendFiles := insertA (insertA st.friendFiles user1 f1) user2 f2 }

/-- `ChatServer.remove_friend_relationship`: load both friend sets, discard
each user from the other's set, save both. -/
def removeFriendRelationship (st : ServerState) (user1 user2 : String) : ServerState :=
  let f1 := setDiscard (loadFriends st user1) user2
  let f2 := setDiscard (loadFriends st user2) user1
  { st with friendFiles := insertA (insertA st.friendFiles user1 f1) user2 f2 }

/-- The authorization check used by `handle_private_message` and
`handle_media_message`: `to_user in self.load_friends(from_user)`.
Under the symmetry invariant this coincides with existence of the
canonical friend edge. -/
def areFriends (st : ServerState) (a b : String) : Bool :=
  decide (b ∈ loadFriends st a)

/-- `ChatServer.store_offline_message`: stamp the payload with the current
time and append it to the recipient's queue. -/
def storeOfflineMessage (st : ServerState) (username : String) (p : Payload) (now : Nat) :
    ServerState :=
  let cur := (lookupA st.offline username).getD []
  { st with offline := insertA st.offline username (cur ++ [{ payload := p, timestamp := now }]) }

/-- `ChatServer.send_offline_messages`: when the user has a non-empty queue,
send the whole list as one `OFFLINE_MESSAGES` frame on the user's socket and
clear the queue.  When the user has no socket entry, the `send_json` raises
inside the `try` block and the queue is left uncleared. -/
def sendOfflineMessages (st : ServerState) (username : String) : List Action × ServerState :=
  match lookupA st.offline username with
  | none => ([], st)
  | some msgs =>
    if msgs = [] then ([], st)
    else
      match lookupA st.clients username with
      | none => ([], st)
      | some s =>
        ([Action.send s (Wire.offlineMessages msgs)],
         { st with offline := insertA st.offline username [] })

/-- `ChatServer.broadcast_to_group`: send the frame to every member of the
group that is not the excluded sender and currently has a socket in
`clients`; members without a live socket are skipped. -/
def broadcastToGroup (st : ServerState) (groupName : String) (w : Wire)
    (excludeUser : Option String) : List Action :=
  match lookupA st.groupsDb groupName with
  | none => []
  | some g =>
    g.members.filterMap (fun member =>
      if some member = excludeUser then none
      else
        match lookupA st.clients member with
        | some s => some (Action.send s w)
        | none => none)

/-- Groups a user belongs to, as computed inside `handle_register` and
`handle_login` by iterating over `groups_db`. -/
def userGroups (st : ServerState) (username : String) : List String :=
  st.groupsDb.filterMap (fun gp => if username ∈ gp.2.members then some gp.1 else none)

/-- `ChatServer.handle_register`: refuse an existing handle, otherwise store
the submitted record verbatim, register the socket, report the user's groups
and flush the offline queue.  The returned `Option String` is the handler's
return value, which `handle_client` assigns to its local `username`. -/
def handleRegister (st : ServerState) (sock : Nat) (d : UserData) :
    List Action × ServerState × Option String :=
  match lookupA st.usersDb d.name with
  | some _ =>
    ([Action.send sock (Wire.plain (Payload.registerError "Username already exists"))], st, none)
  | none =>
    let st1 := { st with usersDb := insertA st.usersDb d.name d,
                         clients := insertA st.clients d.name sock }
    let a1 := Action.send sock (Wire.plain (Payload.registerSuccess (userGroups st1 d.name)))
    let (a2, st2) := sendOfflineMessages st1 d.name
    (a1 :: a2, st2, some d.name)

/-- `ChatServer.handle_login`: check the handle and password against
`users_db`, overwrite the `clients` entry with the new socket, reply with
the stored profile and group list, and flush the offline queue. -/
def handleLogin (st : ServerState) (sock : Nat) (name pw : String) :
    List Action × ServerState × Option String :=
  match lookupA st.usersDb name with
  | none =>
    ([Action.send sock (Wire.plain (Payload.loginError "User not found"))], st, none)
  | some rec =>
    if rec.password ≠ pw then
      ([Action.send sock (Wire.plain (Payload.loginError "Invalid password"))], st, none)
    else
      let st1 := { st with clients := insertA st.clients name sock }
      let a1 := Action.send sock (Wire.plain (Payload.loginSuccess rec (userGroups st1 name)))
      let (a2, st2) := sendOfflineMessages st1 name
      (a1 :: a2, st2, some name)

/-- `ChatServer.handle_get_all_users`: reply with the entire `users_db`. -/
def handleGetAllUsers (st : ServerState) (sock : Nat) : List Action × ServerState :=
  ([Action.send sock (Wire.plain (Payload.allUsersResponse st.usersDb))], st)

/-- `ChatServer.handle_friend_request`: refuse when the target does not
exist; deliver the notification to the target's socket when online, else
append it (with the `is_friend_request` flag) to the target's offline queue.
No pending-request record is kept. -/
def handleFriendRequest (st : ServerState) (sock : Nat) (now : Nat) (fromU toU : String) :
    List Action × ServerState :=
  match lookupA st.usersDb toU with
  | none =>
    ([Action.send sock (Wire.plain (Payload.friendRequestError "User not found"))], st)
  | some _ =>
    let senderInfo := lookupA st.usersDb fromU
    match lookupA st.clients toU with
    | some s =>
      ([Action.send s (Wire.plain (Payload.friendRequestNote fromU senderInfo))], st)
    | none =>
      ([], storeOfflineMessage st toU (Payload.friendRequestNoteOffline fromU senderInfo) now)

/-- `ChatServer.handle_friend_request_response`: on accept, add the
bidirectional friendship, notify the requester (online or queued) and
confirm to the accepter; on decline, notify the requester only. -/
def handleFriendRequestResponse (st : ServerState) (sock : Nat) (now : Nat)
    (fromU toU : String) (accepted : Bool) : List Action × ServerState :=
  if accepted then
    let st1 := addFriendRelationship st fromU toU
    let (acts, st2) :=
      match lookupA st1.clients toU with
      | some s => ([Action.send s (Wire.plain (Payload.friendRequestAccepted fromU))], st1)
      | none => ([], storeOfflineMessage st1 toU (Payload.friendRequestAccepted fromU) now)
    (acts ++ [Action.send sock (Wire.plain (Payload.friendAdded toU))], st2)
  else
    match lookupA st.clients toU with
    | some s => ([Action.send s (Wire.plain (Payload.friendRequestDeclined fromU))], st)
    | none => ([], storeOfflineMessage st toU (Payload.friendRequestDeclined fromU) now)

/-- `ChatServer.handle_private_message`: reject with MESSAGE_ERROR when the
target is not in the sender's stored friend set; otherwise deliver to the
target's socket when online, else append to the target's offline queue. -/
def handlePrivateMessage (st : ServerState) (sock : Nat) (now : Nat)
    (fromU toU msg : String) (timestamp : Nat) : List Action × ServerState :=
  if ¬ (toU ∈ loadFriends st fromU) then
    ([Action.send sock (Wire.plain (Payload.messageError ("You are not friends with " ++ toU)))],
     st)
  else
    match lookupA st.clients toU with
    | some s =>
      ([Action.send s (Wire.plain (Payload.privateMsg fromU msg timestamp))], st)
    | none =>
      ([], storeOfflineMessage st toU
            (Payload.privateMsgOffline fromU msg timestamp (lookupA st.usersDb fromU)) now)

/-- `ChatServer.handle_media_message`: same friendship gate and routing as
`handle_private_message`, for a file payload. -/
def handleMediaMessage (st : ServerState) (sock : Nat) (now : Nat)
    (fromU toU filename filedata : String) (timestamp : Nat) : List Action × ServerState :=
  if ¬ (toU ∈ loadFriends st fromU) then
    ([Action.send sock (Wire.plain (Payload.messageError ("You are not friends with " ++ toU)))],
     st)
  else
    match lookupA st.clients toU with
    | some s =>
      ([Action.send s (Wire.plain (Payload.mediaMsg fromU filename filedata timestamp))], st)
    | none =>
      ([], storeOfflineMessage st toU
            (Payload.mediaMsgOffline fromU filename filedata timestamp (lookupA st.usersDb fromU))
            now)

/-- `ChatServer.handle_group_message`: reject when the group is unknown or
the sender is not a member; otherwise broadcast to the group, excluding the
sender.  The server state is not modified. -/
def handleGroupMessage (st : ServerState) (sock : Nat)
    (fromU groupName msg : String) (timestamp : Nat) : List Action × ServerState :=
  match lookupA st.groupsDb groupName with
  | none =>
    ([Action.send sock
       (Wire.plain (Payload.messageError ("Group " ++ groupName ++ " does not exist")))], st)
  | some g =>
    if ¬ (fromU ∈ g.members) then
      ([Action.send sock
         (Wire.plain (Payload.messageError ("You are not a member of " ++ groupName)))], st)
    else
      (broadcastToGroup st groupName
        (Wire.plain (Payload.groupMsg fromU groupName msg timestamp)) (some fromU), st)

/-- `ChatServer.handle_group_media`: same checks and broadcast as
`handle_group_message`, for a file payload. -/
def handleGroupMedia (st : ServerState) (sock : Nat)
    (fromU groupName filename filedata : String) (timestamp : Nat) :
    List Action × ServerState :=
  match lookupA st.groupsDb groupName with
  | none =>
    ([Action.send sock
       (Wire.plain (Payload.messageError ("Group " ++ groupName ++ " does not exist")))], st)
  | some g =>
    if ¬ (fromU ∈ g.members) then
      ([Action.send sock
         (Wire.plain (Payload.messageError ("You are not a member of " ++ groupName)))], st)
    else
      (broadcastToGroup st groupName
        (Wire.plain (Payload.groupMediaMsg fromU groupName filename filedata timestamp))
        (some fromU), st)

/-- `ChatServer.handle_create_group`: refuse an existing name, otherwise
create the group with the creator as admin and sole member. -/
def handleCreateGroup (st : ServerState) (sock : Nat) (now : Nat)
    (groupName creator description : String) : List Action × ServerState :=
  match lookupA st.groupsDb groupName with
  | some _ =>
    ([Action.send sock (Wire.plain (Payload.createGroupError "Group already exists"))], st)
  | none =>
    let g : Group :=
      { admin := creator, members := [creator], description := description, createdAt := now }
    ([Action.send sock (Wire.plain (Payload.createGroupSuccess groupName))],
     { st with groupsDb := insertA st.groupsDb groupName g })

/-- `ChatServer.handle_group_invite`: validate group, sender membership,
target existence and non-membership, then deliver or enqueue the invite.
`groups_db` is never modified here. -/
def handleGroupInvite (st : ServerState) (sock : Nat) (now : Nat)
    (fromU toU groupName : String) : List Action × ServerState :=
  match lookupA st.groupsDb groupName with
  | none =>
    ([Action.send sock (Wire.plain (Payload.groupInviteError "Group does not exist"))], st)
  | some g =>
    if ¬ (fromU ∈ g.members) then
      ([Action.send sock
         (Wire.plain (Payload.groupInviteError "You are not a member of this group"))], st)
    else if (lookupA st.usersDb toU).isNone then
      ([Action.send sock (Wire.plain (Payload.groupInviteError "User not found"))], st)
    else if toU ∈ g.members then
      ([Action.send sock
         (Wire.plain (Payload.groupInviteError "User is already a member of this group"))], st)
    else
      let senderInfo := lookupA st.usersDb fromU
      match lookupA st.clients toU with
      | some s =>
        ([Action.send s (Wire.plain (Payload.groupInviteNote fromU groupName senderInfo))], st)
      | none =>
        ([], storeOfflineMessage st toU
              (Payload.groupInviteNoteOffline fromU groupName senderInfo) now)

/-- `ChatServer.handle_group_invite_response`: on accept, add the responder
to the group when it still exists and they are not already a member, confirm
to them and notify the inviter when online; on decline, notify the inviter
when online. -/
def handleGroupInviteResponse (st : ServerState) (sock : Nat)
    (fromU groupName : String) (accepted : Bool) (inviter : Option String) :
    List Action × ServerState :=
  if accepted then
    match lookupA st.groupsDb groupName with
    | some g =>
      if ¬ (fromU ∈ g.members) then
        let g1 := { g with members := g.members ++ [fromU] }
        let st1 := { st with groupsDb := insertA st.groupsDb groupName g1 }
        let inviterActs :=
          match inviter with
          | some inv =>
            match lookupA st.clients inv with
            | some s =>
              [Action.send s (Wire.plain (Payload.groupInviteAccepted fromU groupName))]
            | none => []
          | none => []
        (Action.send sock (Wire.plain (Payload.groupJoinSuccess groupName)) :: inviterActs, st1)
      else
        ([Action.send sock
           (Wire.plain (Payload.groupInviteError "You are already a member of this group"))], st)
    | none =>
      ([Action.send sock (Wire.plain (Payload.groupInviteError "Group no longer exists"))], st)
  else
    match inviter with
    | some inv =>
      match lookupA st.clients inv with
      | some s =>
        ([Action.send s (Wire.plain (Payload.groupInviteDeclined fromU groupName))], st)
      | none => ([], st)
    | none => ([], st)

/-- `ChatServer.handle_join_group`: any user may self-join an existing group
they are not yet a member of. -/
def handleJoinGroup (st : ServerState) (sock : Nat) (groupName username : String) :
    List Action × ServerState :=
  match lookupA st.groupsDb groupName with
  | none =>
    ([Action.send sock (Wire.plain (Payload.joinGroupError "Group does not exist"))], st)
  | some g =>
    if username ∈ g.members then
      ([Action.send sock
         (Wire.plain (Payload.joinGroupError "You are already a member of this group"))], st)
    else
      let g1 := { g with members := g.members ++ [username] }
      ([Action.send sock (Wire.plain (Payload.groupJoinSuccess groupName))],
       { st with groupsDb := insertA st.groupsDb groupName g1 })

/-- `ChatServer.handle_leave_group`: remove the member (first occurrence,
as Python `list.remove`); delete the group when no members remain, else
promote the first remaining member when the leaver was admin. -/
def handleLeaveGroup (st : ServerState) (sock : Nat) (groupName username : String) :
    List Action × ServerState :=
  match lookupA st.groupsDb groupName with
  | none =>
    ([Action.send sock (Wire.plain (Payload.leaveGroupError "Group does not exist"))], st)
  | some g =>
    if ¬ (username ∈ g.members) then
      ([Action.send sock
         (Wire.plain (Payload.leaveGroupError "You are not a member of this group"))], st)
    else
      let remaining := g.members.erase username
      let newDb :=
        match remaining with
        | [] => eraseA st.groupsDb groupName
        | m0 :: _ =>
          if g.admin = username then
            insertA st.groupsDb groupName { g with members := remaining, admin := m0 }
          else
            insertA st.groupsDb groupName { g with members := remaining }
      ([Action.send sock (Wire.plain (Payload.leaveGroupSuccess groupName))],
       { st with groupsDb := newDb })

/-- `ChatServer.handle_unfriend`: remove the bidirectional friendship, with
no check that the requester named in the frame is the connection's user,
confirm to the requesting socket and notify the target when online. -/
def handleUnfriend (st : ServerState) (sock : Nat) (fromU target : String) :
    List Action × ServerState :=
  let st1 := removeFriendRelationship st fromU target
  let base := [Action.send sock (Wire.plain (Payload.unfriendSuccess target))]
  match lookupA st1.clients target with
  | some s => (base ++ [Action.send s (Wire.plain (Payload.unfriendedBy fromU))], st1)
  | none => (base, st1)

/-- Inbound frames, one constructor per `type` tag dispatched in
`ChatServer.handle_client` (fields as read by the corresponding handler). -/
inductive Frame where
  | register (d : UserData)
  | login (name pw : String)
  | getAllUsers
  | friendRequest (fromU toU : String)
  | friendRequestResponse (fromU toU : String) (accepted : Bool)
  | privateMessage (fromU toU msg : String) (timestamp : Nat)
  | groupMessage (fromU groupName msg : String) (timestamp : Nat)
  | media (fromU toU filename filedata : String) (timestamp : Nat)
  | groupMedia (fromU groupName filename filedata : String) (timestamp : Nat)
  | createGroup (groupName creator description : String)
  | groupInvite (fromU toU groupName : String)
  | groupInviteResponse (fromU groupName : String) (accepted : Bool) (inviter : Option String)
  | joinGroup (groupName user : String)
  | leaveGroup (groupName user : String)
  | unfriend (fromU target : String)
  | ping
  deriving DecidableEq, Repr

/-- One iteration of the `handle_client` read loop: dispatch a frame on the
connection whose socket is `sock` and whose handler-local `username` is
`auth`.  Only REGISTER and LOGIN assign to `username`; every other handler
receives the socket and the frame alone, so `auth` is returned unchanged and
is never consulted. -/
def dispatch (st : ServerState) (sock : Nat) (auth : Option String) (now : Nat) (f : Frame) :
    List Action × ServerState × Option String :=
  match f with
  | .register d => handleRegister st sock d
  | .login name pw => handleLogin st sock name pw
  | .getAllUsers =>
    let (a, st1) := handleGetAllUsers st sock
    (a, st1, auth)
  | .friendRequest fromU toU =>
    let (a, st1) := handleFriendRequest st sock now fromU toU
    (a, st1, auth)
  | .friendRequestResponse fromU toU accepted =>
    let (a, st1) := handleFriendRequestResponse st sock now fromU toU accepted
    (a, st1, auth)
  | .privateMessage fromU toU msg ts =>
    let (a, st1) := handlePrivateMessage st sock now fromU toU msg ts
    (a, st1, auth)
  | .groupMessage fromU groupName msg ts =>
    let (a, st1) := handleGroupMessage st sock fromU groupName msg ts
    (a, st1, auth)
  | .media fromU toU filename filedata ts =>
    let (a, st1) := handleMediaMessage st sock now fromU toU filename filedata ts
    (a, st1, auth)
  | .groupMedia fromU groupName filename filedata ts =>
    let (a, st1) := handleGroupMedia st sock fromU groupName filename filedata ts
    (a, st1, auth)
  | .createGroup groupName creator description =>
    let (a, st1) := handleCreateGroup st sock now groupName creator description
    (a, st1, auth)
  | .groupInvite fromU toU groupName =>
    let (a, st1) := handleGroupInvite st sock now fromU toU groupName
    (a, st1, auth)
  | .groupInviteResponse fromU groupName accepted inviter =>
    let (a, st1) := handleGroupInviteResponse st sock fromU groupName accepted inviter
    (a, st1, auth)
  | .joinGroup groupName user =>
    let (a, st1) := handleJoinGroup st sock groupName user
    (a, st1, auth)
  | .leaveGroup groupName user =>
    let (a, st1) := handleLeaveGroup st sock groupName user
    (a, st1, auth)
  | .unfriend fromU target =>
    let (a, st1) := handleUnfriend st sock fromU target
    (a, st1, auth)
  | .ping => ([Action.send sock (Wire.plain Payload.pong)], st, auth)

/-! ### The wire framer

`ChatServer.recv_json` reads exactly 8 header bytes and parses them with the
bare Python `int()` conversion, then loops reading that many payload bytes.
The repository's own `protocol_test.py` contains a reference receiver
(`recv_json_from_buffer`) that additionally requires all 8 characters to be
ASCII digits and the value to be at most 1,000,000; `recv_json` in
`server.py` performs neither check.  Both parsers are embedded below. -/

/-- Whitespace characters ignored by the Python `int()` conversion. -/
def isPySpace (c : Char) : Bool :=
  c = ' ' ∨ c = '\t' ∨ c = '\n' ∨ c = '\r' ∨ c = Char.ofNat 11 ∨ c = Char.ofNat 12

/-- Drop leading Python whitespace. -/
def dropPySpaces : List Char → List Char
  | [] => []
  | c :: rest => if isPySpace c then dropPySpaces rest else c :: rest

/-- Digit sequence acceptance of Python `int()`: decimal digits with single
underscores permitted only between two digits.  `acc` is the value read so
far (`none` before the first digit). -/
def pyDigits : List Char → Option Nat → Option Nat
  | [], acc => acc
  | c :: rest, acc =>
    if c.isDigit then
      pyDigits rest (some ((acc.getD 0) * 10 + (c.toNat - 48)))
    else if c = '_' then
      match acc, rest with
      | some _, r :: _ => if r.isDigit then pyDigits rest acc else none
      | _, _ => none
    else none

/-- The Python `int(s)` conversion applied to a decoded header string:
optional surrounding whitespace, optional sign, then digits (with
underscores); `none` models the `ValueError` path. -/
def pyInt (s : String) : Option Int :=
  let cs := dropPySpaces s.data
  let cs := (dropPySpaces cs.reverse).reverse
  match cs with
  | '+' :: rest => (pyDigits rest none).map Int.ofNat
  | '-' :: rest => (pyDigits rest none).map (fun n => -(Int.ofNat n))
  | rest => (pyDigits rest none).map Int.ofNat

/-- Header handling of `ChatServer.recv_json`: parse the 8 decoded header
characters with `int()`; on success the receive loop
`while len(data) < length` goes on to demand that many payload bytes
(zero when the parsed value is negative), with no upper bound. -/
def recvJsonPayloadDemand (header : String) : Option Nat :=
  (pyInt header).map Int.toNat

/-- Maximum frame length enforced by `recv_json_from_buffer` in
`protocol_test.py`. -/
def maxFrameLength : Nat := 1000000

/-- Header validation of `recv_json_from_buffer` in `protocol_test.py`:
exactly 8 characters, all ASCII digits, value between 0 and 1,000,000. -/
def testRecvLength (header : String) : Option Nat :=
  if header.length = 8 ∧ header.data.all Char.isDigit then
    match pyInt header with
    | some l => if l < 0 ∨ l > (maxFrameLength : Int) then none else some l.toNat
    | none => none
  else none

/-! ### Association-list and set lemmas -/

theorem lookupA_insertA {α : Type} (m : List (String × α)) (k q : String) (v : α) :
    lookupA (insertA m k v) q = if k = q then some v else lookupA m q := by
  induction m with
  | nil => by_cases h : k = q <;> simp [insertA, lookupA, h]
  | cons p rest ih =>
    obtain ⟨k2, v2⟩ := p
    by_cases h1 : k2 = k
    · subst h1
      by_cases h2 : k2 = q <;> simp [insertA, lookupA, h2]
    · by_cases h2 : k2 = q
      · subst h2
        have hk : ¬ k = k2 := fun h => h1 h.symm
        simp [insertA, lookupA, h1, hk]
      · simp [insertA, lookupA, h1, h2, ih]

theorem lookupA_mem {α : Type} {m : List (String × α)} {q : String} {v : α}
    (h : lookupA m q = some v) : (q, v) ∈ m := by
  induction m with
  | nil => simp [lookupA] at h
  | cons p rest ih =>
    obtain ⟨k2, v2⟩ := p
    by_cases h2 : k2 = q
    · subst h2
      simp [lookupA] at h
      simp [h]
    · simp [lookupA, h2] at h
      simp [ih h]

theorem mem_insertA {α : Type} {m : List (String × α)} {k : String} {v : α}
    {p : String × α} (h : p ∈ insertA m k v) : p ∈ m ∨ p = (k, v) := by
  induction m with
  | nil => simp [insertA] at h; simp [h]
  | cons q rest ih =>
    obtain ⟨k2, v2⟩ := q
    by_cases h1 : k2 = k
    · subst h1
      simp [insertA] at h
      rcases h with h | h
      · right; simp [h]
      · left; simp [h]
    · simp [insertA, h1] at h
      rcases h with h | h
      · left; simp [h]
      · rcases ih h with h2 | h2
        · left; simp [h2]
        · right; exact h2

theorem mem_eraseA {α : Type} {m : List (String × α)} {k : String}
    {p : String × α} (h : p ∈ eraseA m k) : p ∈ m := by
  induction m with
  | nil => simp [eraseA] at h
  | cons q rest ih =>
    obtain ⟨k2, v2⟩ := q
    by_cases h1 : k2 = k
    · simp [eraseA, h1] at h
      simp [h]
    · simp [eraseA, h1] at h
      rcases h with h | h
      · simp [h]
      · simp [ih h]

theorem lookupA_eq_none_of_not_mem_keys {α : Type} {m : List (String × α)} {k : String}
    (h : ¬ k ∈ m.map Prod.fst) : lookupA m k = none := by
  induction m with
  | nil => rfl
  | cons p rest ih =>
    obtain ⟨k2, v2⟩ := p
    have h1 : ¬ k2 = k := by
      intro hh; exact h (by simp [hh])
    have h2 : ¬ k ∈ rest.map Prod.fst := by
      intro hh; exact h (by simp [hh])
    simp [lookupA, h1, ih h2]

theorem lookupA_eraseA_self {α : Type} (m : List (String × α)) (k : String)
    (hnd : (m.map Prod.fst).Nodup) : lookupA (eraseA m k) k = none := by
  induction m with
  | nil => rfl
  | cons p rest ih =>
    obtain ⟨k2, v2⟩ := p
    simp only [List.map_cons, List.nodup_cons] at hnd
    by_cases h1 : k2 = k
    · subst h1
      simpa [eraseA] using lookupA_eq_none_of_not_mem_keys hnd.1
    · simp [eraseA, lookupA, h1, ih hnd.2]

theorem lookupA_eraseA_ne {α : Type} (m : List (String × α)) {k q : String}
    (h : ¬ k = q) : lookupA (eraseA m k) q = lookupA m q := by
  induction m with
  | nil => rfl
  | cons p rest ih =>
    obtain ⟨k2, v2⟩ := p
    by_cases h1 : k2 = k
    · subst h1
      simp [eraseA, lookupA, h]
    · simp [eraseA, lookupA, h1, ih]

theorem mem_setAdd {l : List String} {x y : String} :
    y ∈ setAdd l x ↔ y ∈ l ∨ y = x := by
  unfold setAdd
  by_cases h : x ∈ l
  · simp only [h, if_true]
    constructor
    · intro h2; exact Or.inl h2
    · intro h2
      rcases h2 with h2 | h2
      · exact h2
      · subst h2; exact h
  · simp [h]

theorem mem_setDiscard {l : List String} {x y : String} :
    y ∈ setDiscard l x ↔ y ∈ l ∧ ¬ y = x := by
  simp [setDiscard]

/-! ### Friendship symmetry -/

theorem loadFriends_addFriendRelationship (st : ServerState) (u1 u2 x : String) :
    loadFriends (addFriendRelationship st u1 u2) x =
      if u2 = x then setAdd (loadFriends st u2) u1
      else if u1 = x then setAdd (loadFriends st u1) u2
      else loadFriends st x := by
  show (lookupA (insertA (insertA st.friendFiles u1 (setAdd (loadFriends st u1) u2)) u2
        (setAdd (loadFriends st u2) u1)) x).getD [] = _
  rw [lookupA_insertA, lookupA_insertA]
  by_cases h2 : u2 = x
  · simp [h2]
  · by_cases h1 : u1 = x <;> simp [h1, h2, loadFriends]

theorem loadFriends_removeFriendRelationship (st : ServerState) (u1 u2 x : String) :
    loadFriends (removeFriendRelationship st u1 u2) x =
      if u2 = x then setDiscard (loadFriends st u2) u1
      else if u1 = x then setDiscard (loadFriends st u1) u2
      else loadFriends st x := by
  show (lookupA (insertA (insertA st.friendFiles u1 (setDiscard (loadFriends st u1) u2)) u2
        (setDiscard (loadFriends st u2) u1)) x).getD [] = _
  rw [lookupA_insertA, lookupA_insertA]
  by_cases h2 : u2 = x
  · simp [h2]
  · by_cases h1 : u1 = x <;> simp [h1, h2, loadFriends]

theorem mem_loadFriends_add {st : ServerState} {u1 u2 a b : String} :
    a ∈ loadFriends (addFriendRelationship st u1 u2) b ↔
      a ∈ loadFriends st b ∨ (b = u1 ∧ a = u2) ∨ (b = u2 ∧ a = u1) := by
  rw [loadFriends_addFriendRelationship]
  by_cases h2 : u2 = b
  · subst h2
    rw [if_pos rfl]
    rw [mem_setAdd]
    constructor
    · rintro (h | h)
      · exact Or.inl h
      · exact Or.inr (Or.inr ⟨rfl, h⟩)
    · rintro (h | ⟨hb, ha⟩ | ⟨_, ha⟩)
      · exact Or.inl h
      · exact Or.inr (ha.trans hb)
      · exact Or.inr ha
  · rw [if_neg h2]
    by_cases h1 : u1 = b
    · subst h1
      rw [if_pos rfl, mem_setAdd]
      have h2s : ¬ (u1 = u2) := fun h => h2 h.symm
      constructor
      · rintro (h | h)
        · exact Or.inl h
        · exact Or.inr (Or.inl ⟨rfl, h⟩)
      · rintro (h | ⟨_, ha⟩ | ⟨hb, _⟩)
        · exact Or.inl h
        · exact Or.inr ha
        · exact absurd hb h2s
    · rw [if_neg h1]
      have h1s : ¬ (b = u1) := fun h => h1 h.symm
      have h2s : ¬ (b = u2) := fun h => h2 h.symm
      simp [h1s, h2s]

theorem mem_loadFriends_remove {st : ServerState} {u1 u2 a b : String} :
    a ∈ loadFriends (removeFriendRelationship st u1 u2) b ↔
      a ∈ loadFriends st b ∧ ¬ (b = u1 ∧ a = u2) ∧ ¬ (b = u2 ∧ a = u1) := by
  rw [loadFriends_removeFriendRelationship]
  by_cases h2 : u2 = b
  · subst h2
    rw [if_pos rfl, mem_setDiscard]
    by_cases h1 : u1 = u2
    · subst h1
      constructor
      · intro h
        exact ⟨h.1, fun hh => h.2 hh.2, fun hh => h.2 hh.2⟩
      · intro h
        exact ⟨h.1, fun hh => h.2.1 ⟨rfl, hh⟩⟩
    · have h1s : ¬ (u2 = u1) := fun h => h1 h.symm
      constructor
      · intro h
        exact ⟨h.1, fun hh => absurd hh.1 h1s, fun hh => h.2 hh.2⟩
      · intro h
        exact ⟨h.1, fun hh => h.2.2 ⟨rfl, hh⟩⟩
  · rw [if_neg h2]
    by_cases h1 : u1 = b
    · subst h1
      rw [if_pos rfl, mem_setDiscard]
      have h2s : ¬ (u1 = u2) := fun h => h2 h.symm
      constructor
      · intro h
        exact ⟨h.1, fun hh => h.2 hh.2, fun hh => absurd hh.1 h2s⟩
      · intro h
        exact ⟨h.1, fun hh => h.2.1 ⟨rfl, hh⟩⟩
    · rw [if_neg h1]
      have h1s : ¬ (b = u1) := fun h => h1 h.symm
      have h2s : ¬ (b = u2) := fun h => h2 h.symm
      simp [h1s, h2s]

/-- Symmetry of the stored friendship relation: whenever a appears in b's
friend file, b appears in a's. -/
def Symm (st : ServerState) : Prop :=
  ∀ a b : String, a ∈ loadFriends st b ↔ b ∈ loadFriends st a

theorem symm_addFriendRelationship {st : ServerState} (h : Symm st) (u1 u2 : String) :
    Symm (addFriendRelationship st u1 u2) := by
  intro a b
  rw [mem_loadFriends_add, mem_loadFriends_add, h a b]
  tauto

theorem symm_removeFriendRelationship {st : ServerState} (h : Symm st) (u1 u2 : String) :
    Symm (removeFriendRelationship st u1 u2) := by
  intro a b
  rw [mem_loadFriends_remove, mem_loadFriends_remove, h a b]
  tauto

theorem friendFiles_storeOfflineMessage (st : ServerState) (u : String) (p : Payload)
    (now : Nat) : (storeOfflineMessage st u p now).friendFiles = st.friendFiles := rfl

theorem symm_of_friendFiles_eq {st st2 : ServerState}
    (h : st2.friendFiles = st.friendFiles) (hs : Symm st) : Symm st2 := by
  intro a b
  show a ∈ (lookupA st2.friendFiles b).getD [] ↔ b ∈ (lookupA st2.friendFiles a).getD []
  rw [h]
  exact hs a b

/-- The Friend Graph operations of the spec workflow, applied through the
real handlers (socket and clock arguments are irrelevant to friend files). -/
inductive FriendOp where
  | request (fromU toU : String)
  | respond (fromU toU : String) (accepted : Bool)
  | unfriendOp (fromU target : String)

/-- Run one friend workflow operation through its `server.py` handler. -/
def applyFriendOp (st : ServerState) : FriendOp → ServerState
  | .request fromU toU => (handleFriendRequest st 0 0 fromU toU).2
  | .respond fromU toU accepted => (handleFriendRequestResponse st 0 0 fromU toU accepted).2
  | .unfriendOp fromU target => (handleUnfriend st 0 fromU target).2

/-- Run a sequence of friend workflow operations. -/
def applyFriendOps (ops : List FriendOp) (st : ServerState) : ServerState :=
  ops.foldl applyFriendOp st

theorem friendFiles_handleFriendRequest (st : ServerState) (sock now : Nat)
    (fromU toU : String) :
    (handleFriendRequest st sock now fromU toU).2.friendFiles = st.friendFiles := by
  unfold handleFriendRequest
  cases lookupA st.usersDb toU with
  | none => rfl
  | some _ =>
    cases lookupA st.clients toU with
    | none => rfl
    | some _ => rfl

theorem friendFiles_handleFriendRequestResponse (st : ServerState) (sock now : Nat)
    (fromU toU : String) (accepted : Bool) :
    (handleFriendRequestResponse st sock now fromU toU accepted).2.friendFiles =
      (if accepted then addFriendRelationship st fromU toU else st).friendFiles := by
  unfold handleFriendRequestResponse
  cases accepted
  · simp only [Bool.false_eq_true, if_false]
    split <;> rfl
  · simp only [if_true]
    split <;> rfl

theorem friendFiles_handleUnfriend (st : ServerState) (sock : Nat) (fromU target : String) :
    (handleUnfriend st sock fromU target).2.friendFiles =
      (removeFriendRelationship st fromU target).friendFiles := by
  unfold handleUnfriend
  dsimp only
  split <;> rfl

theorem symm_applyFriendOp {st : ServerState} (h : Symm st) (op : FriendOp) :
    Symm (applyFriendOp st op) := by
  cases op with
  | request fromU toU =>
    exact symm_of_friendFiles_eq (friendFiles_handleFriendRequest st 0 0 fromU toU) h
  | respond fromU toU accepted =>
    cases accepted with
    | false =>
      refine symm_of_friendFiles_eq ?_ h
      simpa using friendFiles_handleFriendRequestResponse st 0 0 fromU toU false
    | true =>
      refine symm_of_friendFiles_eq ?_ (symm_addFriendRelationship h fromU toU)
      simpa using friendFiles_handleFriendRequestResponse st 0 0 fromU toU true
  | unfriendOp fromU target =>
    exact symm_of_friendFiles_eq (friendFiles_handleUnfriend st 0 fromU target)
      (symm_removeFriendRelationship h fromU target)

theorem symm_applyFriendOps (ops : List FriendOp) {st : ServerState} (h : Symm st) :
    Symm (applyFriendOps ops st) := by
  induction ops generalizing st with
  | nil => exact h
  | cons op rest ih => exact ih (symm_applyFriendOp h op)

theorem symm_initialState : Symm initialState := by
  intro a b
  constructor <;> intro h <;> simp [loadFriends, initialState, lookupA] at h

/-! ### Group admin invariant -/

/-- Every group record in `groups_db` has its admin among its members. -/
def AdminInv (st : ServerState) : Prop :=
  ∀ p ∈ st.groupsDb, p.2.admin ∈ p.2.members

/-- The Group Roster operations of the spec workflow, applied through the
real handlers. -/
inductive GroupOp where
  | create (groupName creator description : String)
  | invite (fromU toU groupName : String)
  | inviteResponse (fromU groupName : String) (accepted : Bool) (inviter : Option String)
  | join (groupName user : String)
  | leave (groupName user : String)

/-- Run one group workflow operation through its `server.py` handler. -/
def applyGroupOp (st : ServerState) : GroupOp → ServerState
  | .create n c d => (handleCreateGroup st 0 0 n c d).2
  | .invite f t g => (handleGroupInvite st 0 0 f t g).2
  | .inviteResponse f g a i => (handleGroupInviteResponse st 0 f g a i).2
  | .join g u => (handleJoinGroup st 0 g u).2
  | .leave g u => (handleLeaveGroup st 0 g u).2

/-- Run a sequence of group workflow operations. -/
def applyGroupOps (ops : List GroupOp) (st : ServerState) : ServerState :=
  ops.foldl applyGroupOp st

theorem groupsDb_handleGroupInvite (st : ServerState) (sock now : Nat)
    (fromU toU groupName : String) :
    (handleGroupInvite st sock now fromU toU groupName).2.groupsDb = st.groupsDb := by
  unfold handleGroupInvite
  dsimp only
  repeat' split
  all_goals rfl

theorem adminInv_handleCreateGroup {st : ServerState} (h : AdminInv st) (sock now : Nat)
    (groupName creator description : String) :
    AdminInv (handleCreateGroup st sock now groupName creator description).2 := by
  unfold handleCreateGroup
  dsimp only
  split
  · exact h
  · intro p hp
    rcases mem_insertA hp with hp2 | hp2
    · exact h p hp2
    · subst hp2; simp

theorem adminInv_handleGroupInviteResponse {st : ServerState} (h : AdminInv st) (sock : Nat)
    (fromU groupName : String) (accepted : Bool) (inviter : Option String) :
    AdminInv (handleGroupInviteResponse st sock fromU groupName accepted inviter).2 := by
  unfold handleGroupInviteResponse
  dsimp only
  repeat' split
  all_goals (try exact h)
  all_goals
    (intro p hp
     rcases mem_insertA hp with hp2 | hp2
     · exact h p hp2
     · subst hp2
       exact List.mem_append_left _ (h _ (lookupA_mem (by assumption))))

theorem adminInv_handleJoinGroup {st : ServerState} (h : AdminInv st) (sock : Nat)
    (groupName username : String) :
    AdminInv (handleJoinGroup st sock groupName username).2 := by
  unfold handleJoinGroup
  dsimp only
  repeat' split
  all_goals (try exact h)
  intro p hp
  rcases mem_insertA hp with hp2 | hp2
  · exact h p hp2
  · subst hp2
    exact List.mem_append_left _ (h _ (lookupA_mem (by assumption)))

theorem adminInv_handleLeaveGroup {st : ServerState} (h : AdminInv st) (sock : Nat)
    (groupName username : String) :
    AdminInv (handleLeaveGroup st sock groupName username).2 := by
  unfold handleLeaveGroup
  dsimp only
  split
  · exact h
  · rename_i g hg
    split
    · exact h
    · rename_i hmem
      split
      · rename_i hrem
        intro p hp
        exact h p (mem_eraseA hp)
      · rename_i m0 rest hrem
        split
        · intro p hp
          rcases mem_insertA hp with hp2 | hp2
          · exact h p hp2
          · subst hp2
            rw [hrem]
            exact List.mem_cons_self m0 rest
        · rename_i hadmin
          intro p hp
          rcases mem_insertA hp with hp2 | hp2
          · exact h p hp2
          · subst hp2
            show g.admin ∈ g.members.erase username
            rw [List.mem_erase_of_ne hadmin]
            exact h _ (lookupA_mem hg)

theorem adminInv_applyGroupOp {st : ServerState} (h : AdminInv st) (op : GroupOp) :
    AdminInv (applyGroupOp st op) := by
  cases op with
  | create n c d => exact adminInv_handleCreateGroup h 0 0 n c d
  | invite f t g =>
    intro p hp
    rw [applyGroupOp, groupsDb_handleGroupInvite] at hp
    exact h p hp
  | inviteResponse f g a i => exact adminInv_handleGroupInviteResponse h 0 f g a i
  | join g u => exact adminInv_handleJoinGroup h 0 g u
  | leave g u => exact adminInv_handleLeaveGroup h 0 g u

theorem adminInv_applyGroupOps (ops : List GroupOp) {st : ServerState} (h : AdminInv st) :
    AdminInv (applyGroupOps ops st) := by
  induction ops generalizing st with
  | nil => exact h
  | cons op rest ih => exact ih (adminInv_applyGroupOp h op)

theorem adminInv_initialState : AdminInv initialState := by
  intro p hp
  simp [initialState] at hp

/-! ### Shared helper definitions for the claim statements -/

/-- Does an action carry an OFFLINE_MESSAGES batch? -/
def isOfflineBatchAction : Action → Bool
  | .send _ (Wire.offlineMessages _) => true
  | .send _ (Wire.plain _) => false

/-- The frame kinds of claim C9 whose acting user is read from the frame:
PRIVATE_MESSAGE, UNFRIEND and LEAVE_GROUP. -/
def isActorFrame : Frame → Bool
  | .privateMessage _ _ _ _ => true
  | .unfriend _ _ => true
  | .leaveGroup _ _ => true
  | _ => false

/-- Profile record of the test user alice. -/
def aliceRec : UserData := { name := "alice", password := "pw1", extra := [] }

/-- Profile record of the test user bob. -/
def bobRec : UserData := { name := "bob", password := "pw2", extra := [] }

/-- Broadcast unfolding: with the group present, `broadcast_to_group` sends
the frame to exactly the members that are distinct from the excluded sender
and have a socket in `clients`. -/
theorem broadcastToGroup_eq (st : ServerState) (groupName : String) (w : Wire)
    (fromU : String) (g : Group) (hg : lookupA st.groupsDb groupName = some g) :
    broadcastToGroup st groupName w (some fromU) =
      g.members.filterMap (fun member =>
        if member = fromU then none
        else (lookupA st.clients member).map (fun s => Action.send s w)) := by
  unfold broadcastToGroup
  rw [hg]
  dsimp only
  congr 1
  funext member
  by_cases h : member = fromU
  · simp [h]
  · simp only [Option.some.injEq, h, if_neg, if_false]
    cases lookupA st.clients member <;> rfl

/-- State with one group g = a, b where only a is online and nobody has
queued offline messages; used to refute claim C1. -/
def stC1 : ServerState :=
  { clients := [("a", 1)],
    usersDb := [],
    groupsDb := [("g", { admin := "a", members := ["a", "b"], description := "", createdAt := 0 })],
    offline := [],
    friendFiles := [] }

/-- C1, counterexample.  In `stC1` the handle b is a member of group g with
no live session and an absent offline queue, yet the GROUP_MESSAGE from a
produces no send at all and leaves the server state — in particular b's
offline queue — unchanged.  The claim requires the payload to be appended
to b's Offline Queue. -/
theorem C1_counterexample :
    lookupA stC1.groupsDb "g" =
      some { admin := "a", members := ["a", "b"], description := "", createdAt := 0 } ∧
    lookupA stC1.clients "b" = none ∧
    handleGroupMessage stC1 1 "a" "g" "hi" 5 = ([], stC1) ∧
    lookupA (handleGroupMessage stC1 1 "a" "g" "hi" 5).2.offline "b" = none := by
  refine ⟨rfl, rfl, rfl, rfl⟩

/-- C1, amended: a group broadcast (GROUP_MESSAGE or GROUP_MEDIA from a
member of an existing group) is delivered to exactly those members other
than the sender that have a live session; members without a live session
receive nothing — the payload is not appended to their Offline Queue, and
the server state is entirely unchanged. -/
theorem C1_group_broadcast_live_only (st : ServerState) (sock : Nat)
    (fromU groupName msg fn fd : String) (ts : Nat) (g : Group)
    (hg : lookupA st.groupsDb groupName = some g) (hm : fromU ∈ g.members) :
    handleGroupMessage st sock fromU groupName msg ts =
      (g.members.filterMap (fun member =>
        if member = fromU then none
        else (lookupA st.clients member).map (fun s =>
          Action.send s (Wire.plain (Payload.groupMsg fromU groupName msg ts)))), st) ∧
    handleGroupMedia st sock fromU groupName fn fd ts =
      (g.members.filterMap (fun member =>
        if member = fromU then none
        else (lookupA st.clients member).map (fun s =>
          Action.send s (Wire.plain (Payload.groupMediaMsg fromU groupName fn fd ts)))), st) := by
  constructor
  · unfold handleGroupMessage
    rw [hg]
    dsimp only
    rw [if_neg (not_not_intro hm), broadcastToGroup_eq st groupName _ fromU g hg]
  · unfold handleGroupMedia
    rw [hg]
    dsimp only
    rw [if_neg (not_not_intro hm), broadcastToGroup_eq st groupName _ fromU g hg]

/-- State with group g = a, b, c where a and b are online; used as the
witness input for the amended C1. -/
def stC1w : ServerState :=
  { clients := [("a", 1), ("b", 2)],
    usersDb := [],
    groupsDb := [("g",
      { admin := "a", members := ["a", "b", "c"], description := "", createdAt := 0 })],
    offline := [],
    friendFiles := [] }

/-- Witness for the amended C1 at `stC1w`: the broadcast from a reaches
exactly the live member b and nothing else. -/
theorem C1_witness :
    handleGroupMessage stC1w 1 "a" "g" "hi" 5 =
      ((["a", "b", "c"] : List String).filterMap (fun member =>
        if member = "a" then none
        else (lookupA stC1w.clients member).map (fun s =>
          Action.send s (Wire.plain (Payload.groupMsg "a" "g" "hi" 5)))), stC1w) ∧
    handleGroupMedia stC1w 1 "a" "g" "x.png" "bytes" 5 =
      ((["a", "b", "c"] : List String).filterMap (fun member =>
        if member = "a" then none
        else (lookupA stC1w.clients member).map (fun s =>
          Action.send s (Wire.plain (Payload.groupMediaMsg "a" "g" "x.png" "bytes" 5)))), stC1w) :=
  C1_group_broadcast_live_only stC1w 1 "a" "g" "hi" "x.png" "bytes" 5
    { admin := "a", members := ["a", "b", "c"], description := "", createdAt := 0 }
    rfl (by decide)

/-- C2: the friendship authorization gate on PRIVATE_MESSAGE and MEDIA.
When `areFriends` is false the sender gets a MESSAGE_ERROR and the state is
unchanged (nothing delivered, nothing enqueued), whatever the recipient's
online status; when it is true the payload goes to the recipient's live
socket, or is appended to the recipient's offline queue when they have no
live session. -/
theorem C2_friendship_gate (st : ServerState) (sock now : Nat)
    (a b m fn fd : String) (ts : Nat) :
    (areFriends st a b = false →
      handlePrivateMessage st sock now a b m ts =
        ([Action.send sock
           (Wire.plain (Payload.messageError ("You are not friends with " ++ b)))], st) ∧
      handleMediaMessage st sock now a b fn fd ts =
        ([Action.send sock
           (Wire.plain (Payload.messageError ("You are not friends with " ++ b)))], st)) ∧
    (areFriends st a b = true →
      (∀ s, lookupA st.clients b = some s →
        handlePrivateMessage st sock now a b m ts =
          ([Action.send s (Wire.plain (Payload.privateMsg a m ts))], st) ∧
        handleMediaMessage st sock now a b fn fd ts =
          ([Action.send s (Wire.plain (Payload.mediaMsg a fn fd ts))], st)) ∧
      (lookupA st.clients b = none →
        handlePrivateMessage st sock now a b m ts =
          ([], storeOfflineMessage st b
                 (Payload.privateMsgOffline a m ts (lookupA st.usersDb a)) now) ∧
        handleMediaMessage st sock now a b fn fd ts =
          ([], storeOfflineMessage st b
                 (Payload.mediaMsgOffline a fn fd ts (lookupA st.usersDb a)) now))) := by
  constructor
  · intro hno
    have h : ¬ (b ∈ loadFriends st a) := of_decide_eq_false hno
    constructor
    · unfold handlePrivateMessage
      rw [if_pos h]
    · unfold handleMediaMessage
      rw [if_pos h]
  · intro hyes
    have h : b ∈ loadFriends st a := of_decide_eq_true hyes
    constructor
    · intro s hs
      constructor
      · unfold handlePrivateMessage
        rw [if_neg (not_not_intro h), hs]
      · unfold handleMediaMessage
        rw [if_neg (not_not_intro h), hs]
    · intro hnone
      constructor
      · unfold handlePrivateMessage
        rw [if_neg (not_not_intro h), hnone]
      · unfold handleMediaMessage
        rw [if_neg (not_not_intro h), hnone]

/-- State where alice and bob are mutual friends, bob is online and carol is
a stranger; used as the witness input for C2. -/
def stC2 : ServerState :=
  { clients := [("alice", 1), ("bob", 2)],
    usersDb := [("alice", aliceRec), ("bob", bobRec)],
    groupsDb := [],
    offline := [],
    friendFiles := [("alice", ["bob"]), ("bob", ["alice"])] }

/-- Witness for C2 at `stC2`: a message from alice to the stranger carol is
rejected with MESSAGE_ERROR and changes nothing, while a message from alice
to her friend bob is delivered on bob's socket. -/
theorem C2_witness :
    (handlePrivateMessage stC2 1 9 "alice" "carol" "hi" 7 =
      ([Action.send 1
         (Wire.plain (Payload.messageError ("You are not friends with " ++ "carol")))], stC2)) ∧
    (handlePrivateMessage stC2 1 9 "alice" "bob" "hi" 7 =
      ([Action.send 2 (Wire.plain (Payload.privateMsg "alice" "hi" 7))], stC2)) :=
  ⟨((C2_friendship_gate stC2 1 9 "alice" "carol" "hi" "f" "d" 7).1 (by decide)).1,
   (((C2_friendship_gate stC2 1 9 "alice" "bob" "hi" "f" "d" 7).2 (by decide)).1 2 rfl).1⟩

/-- C3: `recv_json` in `server.py` parses the 8-byte header with the bare
`int()` conversion and imposes no maximum, so it accepts the all-digit
header 99999999 (far above the 1,000,000 bound) and then demands that many
payload bytes, and it also accepts headers that are not all ASCII digits;
the repository's own reference receiver in `protocol_test.py`
(`testRecvLength`) rejects both, as the claim requires. -/
theorem C3_recv_length_unchecked :
    recvJsonPayloadDemand "99999999" = some 99999999 ∧
    maxFrameLength < 99999999 ∧
    testRecvLength "99999999" = none ∧
    recvJsonPayloadDemand "    1234" = some 1234 ∧
    testRecvLength "    1234" = none ∧
    recvJsonPayloadDemand "+1234567" = some 1234567 ∧
    testRecvLength "+1234567" = none := by
  refine ⟨rfl, by norm_num [maxFrameLength], rfl, rfl, rfl, rfl, rfl⟩

/-- `send_offline_messages` on a user whose `clients` entry is `s`: either
the queue is absent or empty and nothing happens, or the whole queue goes
out as one batch on `s` and the stored queue becomes empty. -/
theorem sendOfflineMessages_spec (st : ServerState) (u : String) (s : Nat)
    (hc : lookupA st.clients u = some s) :
    sendOfflineMessages st u =
      (if (lookupA st.offline u).getD [] = [] then ([], st)
       else ([Action.send s (Wire.offlineMessages ((lookupA st.offline u).getD []))],
             { st with offline := insertA st.offline u [] })) := by
  unfold sendOfflineMessages
  cases h0 : lookupA st.offline u with
  | none => simp
  | some msgs =>
    by_cases hm : msgs = []
    · simp [hm]
    · simp [hm, hc]

/-- Full behaviour of `handle_login` on a correct handle and password: the
`clients` entry is overwritten with the new socket, the stored profile and
group list are sent on the new socket, a non-empty offline queue is flushed
to the new socket and cleared, and the handler returns the handle. -/
theorem handleLogin_success_spec (st : ServerState) (sock : Nat) (name pw : String)
    (rec : UserData) (hu : lookupA st.usersDb name = some rec) (hpw : rec.password = pw) :
    handleLogin st sock name pw =
      (Action.send sock (Wire.plain (Payload.loginSuccess rec (userGroups st name))) ::
         (if (lookupA st.offline name).getD [] = [] then []
          else [Action.send sock (Wire.offlineMessages ((lookupA st.offline name).getD []))]),
       (if (lookupA st.offline name).getD [] = []
        then { st with clients := insertA st.clients name sock }
        else { st with clients := insertA st.clients name sock,
                       offline := insertA st.offline name [] }),
       some name) := by
  unfold handleLogin
  rw [hu]
  dsimp only
  rw [if_neg (not_not_intro hpw)]
  have hc : lookupA (insertA st.clients name sock) name = some sock := by
    rw [lookupA_insertA, if_pos rfl]
  rw [sendOfflineMessages_spec _ _ _ hc]
  by_cases h0 : (lookupA st.offline name).getD [] = [] <;> simp [h0] <;> rfl

/-- State in which alice already has a live session on socket 1; used to
refute claim C4. -/
def stC4 : ServerState :=
  { clients := [("alice", 1)],
    usersDb := [("alice", aliceRec)],
    groupsDb := [],
    offline := [],
    friendFiles := [] }

/-- C4, counterexample.  In `stC4` alice has a live session on socket 1.  A
second LOGIN for alice from socket 2 succeeds (it is not refused), the
presence entry is silently overwritten with socket 2, and the prior
transport receives nothing at all — in particular no close and no eviction
notice — so both connection handlers are left holding the handle.  The
claim requires the server to refuse the login or evict the prior session. -/
theorem C4_counterexample :
    (handleLogin stC4 2 "alice" "pw1").2.2 = some "alice" ∧
    lookupA (handleLogin stC4 2 "alice" "pw1").2.1.clients "alice" = some 2 ∧
    (handleLogin stC4 2 "alice" "pw1").1 =
      [Action.send 2 (Wire.plain (Payload.loginSuccess aliceRec []))] := by
  refine ⟨rfl, rfl, rfl⟩

/-- C4, amended: when a login succeeds for a handle that already has a live
session on another socket, the server silently overwrites the presence
entry with the new socket (second-login-wins); it does not refuse the
login, and it sends nothing on — and never closes — the prior transport,
so the prior session handler still believes it holds the handle. -/
theorem C4_second_login_overwrites (st : ServerState) (sock oldSock : Nat)
    (name pw : String) (rec : UserData)
    (hu : lookupA st.usersDb name = some rec) (hpw : rec.password = pw)
    (hold : lookupA st.clients name = some oldSock) (hne : oldSock ≠ sock) :
    (handleLogin st sock name pw).2.2 = some name ∧
    lookupA (handleLogin st sock name pw).2.1.clients name = some sock ∧
    ∀ act ∈ (handleLogin st sock name pw).1, act.dest = sock ∧ act.dest ≠ oldSock := by
  rw [handleLogin_success_spec st sock name pw rec hu hpw]
  by_cases h0 : (lookupA st.offline name).getD [] = []
  · rw [if_pos h0, if_pos h0]
    refine ⟨rfl, by rw [lookupA_insertA, if_pos rfl], ?_⟩
    intro act hact
    have h := List.mem_singleton.mp hact
    subst h
    exact ⟨rfl, fun hh => hne hh.symm⟩
  · rw [if_neg h0, if_neg h0]
    refine ⟨rfl, by rw [lookupA_insertA, if_pos rfl], ?_⟩
    intro act hact
    rcases List.mem_cons.mp hact with h | hact
    · subst h
      exact ⟨rfl, fun hh => hne hh.symm⟩
    · have h := List.mem_singleton.mp hact
      subst h
      exact ⟨rfl, fun hh => hne hh.symm⟩

/-- Witness for the amended C4 at `stC4`: the second login for alice from
socket 2 succeeds, remaps alice to socket 2, and addresses every action to
socket 2, never to the prior socket 1. -/
theorem C4_witness :
    (handleLogin stC4 2 "alice" "pw1").2.2 = some "alice" ∧
    lookupA (handleLogin stC4 2 "alice" "pw1").2.1.clients "alice" = some 2 ∧
    ∀ act ∈ (handleLogin stC4 2 "alice" "pw1").1, act.dest = 2 ∧ act.dest ≠ 1 :=
  C4_second_login_overwrites stC4 2 1 "alice" "pw1" aliceRec rfl rfl rfl (by decide)

/-- State with alice (online) and bob (registered, offline) and empty
queues; used to refute claim C5. -/
def stC5 : ServerState :=
  { clients := [("alice", 1)],
    usersDb := [("alice", aliceRec), ("bob", bobRec)],
    groupsDb := [],
    offline := [],
    friendFiles := [] }

/-- C5, counterexample.  Processing FRIEND_REQUEST alice → bob twice (bob
offline, no response in between) leaves two queued FRIEND_REQUEST entries
in bob's offline queue, not one: the server keeps no pending-request record
and duplicate requests are not idempotent. -/
theorem C5_counterexample :
    lookupA ((handleFriendRequest
        ((handleFriendRequest stC5 1 0 "alice" "bob").2) 1 1 "alice" "bob").2).offline "bob" =
      some [{ payload := Payload.friendRequestNoteOffline "alice" (some aliceRec), timestamp := 0 },
            { payload := Payload.friendRequestNoteOffline "alice" (some aliceRec), timestamp := 1 }] := by
  rfl

/-- C5, amended: `handle_friend_request` records no pending request, so it
is not idempotent: every duplicate FRIEND_REQUEST from a to an offline,
registered b appends one more FRIEND_REQUEST entry to b's offline queue —
two requests before any response leave two queued entries, not one. -/
theorem C5_duplicate_requests_enqueue_twice (st : ServerState) (sock now1 now2 : Nat)
    (a b : String) (rec : UserData)
    (hb : lookupA st.usersDb b = some rec) (hoff : lookupA st.clients b = none) :
    (lookupA ((handleFriendRequest
        ((handleFriendRequest st sock now1 a b).2) sock now2 a b).2).offline b).getD [] =
      (lookupA st.offline b).getD [] ++
        [{ payload := Payload.friendRequestNoteOffline a (lookupA st.usersDb a),
           timestamp := now1 },
         { payload := Payload.friendRequestNoteOffline a (lookupA st.usersDb a),
           timestamp := now2 }] := by
  unfold handleFriendRequest storeOfflineMessage
  rw [hb]
  dsimp only
  rw [hoff]
  dsimp only
  rw [hb]
  dsimp only
  rw [hoff]
  dsimp only
  rw [lookupA_insertA, if_pos rfl, lookupA_insertA, if_pos rfl]
  simp

/-- Witness for the amended C5 at `stC5`: two FRIEND_REQUESTs from alice to
the offline bob leave exactly two queued entries. -/
theorem C5_witness :
    (lookupA ((handleFriendRequest
        ((handleFriendRequest stC5 1 0 "alice" "bob").2) 1 1 "alice" "bob").2).offline "bob").getD [] =
      (lookupA stC5.offline "bob").getD [] ++
        [{ payload := Payload.friendRequestNoteOffline "alice" (lookupA stC5.usersDb "alice"),
           timestamp := 0 },
         { payload := Payload.friendRequestNoteOffline "alice" (lookupA stC5.usersDb "alice"),
           timestamp := 1 }] :=
  C5_duplicate_requests_enqueue_twice stC5 1 0 1 "alice" "bob" bobRec rfl rfl

/-- C6: offline queue drain on login.  A successful login for H whose
queue holds M1..Mn sends, after the LOGIN_SUCCESS reply, exactly one
OFFLINE_MESSAGES batch carrying the whole queue in enqueue order (no batch
at all when the queue is empty), and clears H's queue; a second login with
nothing newly enqueued sends no batch, so no message is delivered twice or
lost. -/
theorem C6_offline_batch_drained_once (st : ServerState) (sock : Nat) (name pw : String)
    (rec : UserData) (ms : List Stored)
    (hu : lookupA st.usersDb name = some rec) (hpw : rec.password = pw)
    (hms : (lookupA st.offline name).getD [] = ms) :
    (handleLogin st sock name pw).2.2 = some name ∧
    (handleLogin st sock name pw).1 =
      Action.send sock (Wire.plain (Payload.loginSuccess rec (userGroups st name))) ::
        (if ms = [] then [] else [Action.send sock (Wire.offlineMessages ms)]) ∧
    (lookupA (handleLogin st sock name pw).2.1.offline name).getD [] = [] ∧
    List.filter isOfflineBatchAction
      (handleLogin (handleLogin st sock name pw).2.1 sock name pw).1 = [] := by
  rw [handleLogin_success_spec st sock name pw rec hu hpw, hms]
  by_cases h0 : ms = []
  · rw [if_pos h0, if_pos h0]
    dsimp only
    refine ⟨rfl, rfl, ?_, ?_⟩
    · show (lookupA st.offline name).getD [] = []
      rw [hms, h0]
    · have hu2 : lookupA ({ st with clients := insertA st.clients name sock }).usersDb name =
        some rec := hu
      rw [handleLogin_success_spec _ sock name pw rec hu2 hpw]
      have h2 : (lookupA ({ st with clients := insertA st.clients name sock }).offline
          name).getD [] = [] := by
        show (lookupA st.offline name).getD [] = []
        rw [hms, h0]
      rw [if_pos h2]
      rfl
  · rw [if_neg h0, if_neg h0]
    dsimp only
    refine ⟨rfl, rfl, ?_, ?_⟩
    · show (lookupA (insertA st.offline name []) name).getD [] = []
      rw [lookupA_insertA, if_pos rfl]
      rfl
    · have hu2 : lookupA ({ st with clients := insertA st.clients name sock, offline := insertA st.offline name [] } : ServerState).usersDb name = some rec := hu
      rw [handleLogin_success_spec _ sock name pw rec hu2 hpw]
      have h2 : (lookupA ({ st with clients := insertA st.clients name sock, offline := insertA st.offline name [] } : ServerState).offline name).getD [] = [] := by
        show (lookupA (insertA st.offline name []) name).getD [] = []
        rw [lookupA_insertA, if_pos rfl]
        rfl
      rw [if_pos h2]
      rfl

/-- Stored messages m1, m2, m3 used by the C6 witness. -/
def msgsC6 : List Stored :=
  [{ payload := Payload.privateMsgOffline "bob" "m1" 1 (some bobRec), timestamp := 1 },
   { payload := Payload.privateMsgOffline "bob" "m2" 2 (some bobRec), timestamp := 2 },
   { payload := Payload.privateMsgOffline "bob" "m3" 3 (some bobRec), timestamp := 3 }]

/-- State in which alice is offline with three queued messages; used as the
witness input for C6. -/
def stC6 : ServerState :=
  { clients := [],
    usersDb := [("alice", aliceRec)],
    groupsDb := [],
    offline := [("alice", msgsC6)],
    friendFiles := [] }

/-- Witness for C6 at `stC6`: alice's login delivers the three queued
messages as one ordered batch, clears the queue, and a second login sends
no batch. -/
theorem C6_witness :
    (handleLogin stC6 7 "alice" "pw1").2.2 = some "alice" ∧
    (handleLogin stC6 7 "alice" "pw1").1 =
      Action.send 7 (Wire.plain (Payload.loginSuccess aliceRec (userGroups stC6 "alice"))) ::
        (if msgsC6 = [] then [] else [Action.send 7 (Wire.offlineMessages msgsC6)]) ∧
    (lookupA (handleLogin stC6 7 "alice" "pw1").2.1.offline "alice").getD [] = [] ∧
    List.filter isOfflineBatchAction
      (handleLogin (handleLogin stC6 7 "alice" "pw1").2.1 7 "alice" "pw1").1 = [] :=
  C6_offline_batch_drained_once stC6 7 "alice" "pw1" aliceRec msgsC6 rfl rfl rfl

/-- C7: the group admin invariant.  First, after any sequence of
create/invite/invite-response/join/leave operations run from a fresh
server, every group still present in `groups_db` has its admin among its
members.  Second, when the last member leaves, the group is deleted.
Third, when the admin leaves a group that keeps at least one member, the
admin role transfers to the first remaining member. -/
theorem C7_group_admin_invariant :
    (∀ (ops : List GroupOp) (g : String) (grp : Group),
       lookupA (applyGroupOps ops initialState).groupsDb g = some grp →
       grp.admin ∈ grp.members) ∧
    (∀ (st : ServerState) (sock : Nat) (g : String) (grp : Group) (u : String),
       (st.groupsDb.map Prod.fst).Nodup →
       lookupA st.groupsDb g = some grp → u ∈ grp.members → grp.members.erase u = [] →
       lookupA (handleLeaveGroup st sock g u).2.groupsDb g = none) ∧
    (∀ (st : ServerState) (sock : Nat) (g : String) (grp : Group) (u m : String)
       (rest : List String),
       lookupA st.groupsDb g = some grp → u ∈ grp.members → grp.admin = u →
       grp.members.erase u = m :: rest →
       lookupA (handleLeaveGroup st sock g u).2.groupsDb g =
         some { grp with admin := m, members := m :: rest }) := by
  refine ⟨?_, ?_, ?_⟩
  · intro ops g grp hg
    exact adminInv_applyGroupOps ops adminInv_initialState _ (lookupA_mem hg)
  · intro st sock g grp u hnd hg hu hrem
    unfold handleLeaveGroup
    rw [hg]
    dsimp only
    rw [if_neg (not_not_intro hu), hrem]
    dsimp only
    exact lookupA_eraseA_self st.groupsDb g hnd
  · intro st sock g grp u m rest hg hu hadmin hrem
    unfold handleLeaveGroup
    rw [hg]
    dsimp only
    rw [if_neg (not_not_intro hu), hrem]
    dsimp only
    rw [if_pos hadmin, lookupA_insertA, if_pos rfl]

/-- State with a single-member group h owned by b; used by the C7
witness for the last-member-leaves case. -/
def stC7 : ServerState :=
  { clients := [],
    usersDb := [],
    groupsDb := [("h", { admin := "b", members := ["b"], description := "", createdAt := 0 })],
    offline := [],
    friendFiles := [] }

/-- Witness for C7: after the concrete run create g by a, join by b, leave
by a, the surviving admin b is a member; the sole member b leaving group h
destroys it; and the admin a leaving the three-member group g transfers the
admin role to b. -/
theorem C7_witness :
    (("b" : String) ∈ (["b"] : List String)) ∧
    lookupA (handleLeaveGroup stC7 3 "h" "b").2.groupsDb "h" = none ∧
    lookupA (handleLeaveGroup stC1w 3 "g" "a").2.groupsDb "g" =
      some { admin := "b", members := ["b", "c"], description := "", createdAt := 0 } :=
  ⟨C7_group_admin_invariant.1
     [GroupOp.create "g" "a" "", GroupOp.join "g" "b", GroupOp.leave "g" "a"]
     "g" { admin := "b", members := ["b"], description := "", createdAt := 0 } rfl,
   C7_group_admin_invariant.2.1 stC7 3 "h"
     { admin := "b", members := ["b"], description := "", createdAt := 0 } "b"
     (by decide) rfl (by decide) (by decide),
   C7_group_admin_invariant.2.2 stC1w 3 "g"
     { admin := "a", members := ["a", "b", "c"], description := "", createdAt := 0 }
     "a" "b" ["c"] rfl (by decide) rfl (by decide)⟩

/-- C8: friendship symmetry.  After any sequence of friend-request,
accept/decline and unfriend operations run from a fresh server,
`areFriends` is symmetric: a is in b's stored friend set exactly when b is
in a's. -/
theorem C8_friendship_symmetry (ops : List FriendOp) (a b : String) :
    areFriends (applyFriendOps ops initialState) a b =
      areFriends (applyFriendOps ops initialState) b a := by
  have h := symm_applyFriendOps ops symm_initialState
  exact decide_eq_decide.mpr (h b a)

theorem state_handlePrivateMessage_sock_indep (st : ServerState) (s1 s2 now : Nat)
    (fromU toU msg : String) (ts : Nat) :
    (handlePrivateMessage st s1 now fromU toU msg ts).2 =
      (handlePrivateMessage st s2 now fromU toU msg ts).2 := by
  unfold handlePrivateMessage
  repeat' split
  all_goals rfl

theorem state_handleUnfriend_sock_indep (st : ServerState) (s1 s2 : Nat)
    (fromU target : String) :
    (handleUnfriend st s1 fromU target).2 = (handleUnfriend st s2 fromU target).2 := by
  unfold handleUnfriend
  dsimp only
  repeat' split
  all_goals rfl

theorem state_handleLeaveGroup_sock_indep (st : ServerState) (s1 s2 : Nat)
    (groupName username : String) :
    (handleLeaveGroup st s1 groupName username).2 =
      (handleLeaveGroup st s2 groupName username).2 := by
  unfold handleLeaveGroup
  repeat' split
  all_goals rfl

theorem state_handleUnfriend_eq_remove (st : ServerState) (sock : Nat)
    (fromU target : String) :
    (handleUnfriend st sock fromU target).2 = removeFriendRelationship st fromU target := by
  unfold handleUnfriend
  dsimp only
  split
  all_goals rfl

/-- C9: the server trusts the actor fields inside each frame and never
compares them with the handle the connection authenticated as.  For the
PRIVATE_MESSAGE, UNFRIEND and LEAVE_GROUP frames: (1) on one connection,
the dispatched actions and resulting server state do not depend on the
handler's authenticated `username` (including no authentication at all);
(2) the resulting server state does not depend on the sending connection at
all — any connection, whatever it authenticated as, causes the same
mutation; and (3) an UNFRIEND frame naming `fromU` removes the friendship
as `fromU`, whoever sent it. -/
theorem C9_actor_taken_from_frame :
    (∀ (st : ServerState) (sock now : Nat) (f : Frame) (a1 a2 : Option String),
       isActorFrame f = true →
       (dispatch st sock a1 now f).1 = (dispatch st sock a2 now f).1 ∧
       (dispatch st sock a1 now f).2.1 = (dispatch st sock a2 now f).2.1) ∧
    (∀ (st : ServerState) (sock1 sock2 now : Nat) (f : Frame) (a1 a2 : Option String),
       isActorFrame f = true →
       (dispatch st sock1 a1 now f).2.1 = (dispatch st sock2 a2 now f).2.1) ∧
    (∀ (st : ServerState) (sock now : Nat) (a : Option String) (fromU target : String),
       (dispatch st sock a now (Frame.unfriend fromU target)).2.1 =
         removeFriendRelationship st fromU target) := by
  refine ⟨?_, ?_, ?_⟩
  · intro st sock now f a1 a2 hf
    cases f <;> simp [isActorFrame] at hf <;> exact ⟨rfl, rfl⟩
  · intro st sock1 sock2 now f a1 a2 hf
    cases f <;> simp [isActorFrame] at hf
    · exact state_handlePrivateMessage_sock_indep st sock1 sock2 now _ _ _ _
    · exact state_handleLeaveGroup_sock_indep st sock1 sock2 _ _
    · exact state_handleUnfriend_sock_indep st sock1 sock2 _ _
  · intro st sock now a fromU target
    exact state_handleUnfriend_eq_remove st sock fromU target

/-- Witness for C9 at `stC2`: an unauthenticated connection and one
authenticated as mallory dispatching UNFRIEND alice → bob produce the same
actions and state, from either socket, and that state is exactly the
removal of the alice–bob friendship. -/
theorem C9_witness :
    ((dispatch stC2 9 none 0 (Frame.unfriend "alice" "bob")).1 =
       (dispatch stC2 9 (some "mallory") 0 (Frame.unfriend "alice" "bob")).1 ∧
     (dispatch stC2 9 none 0 (Frame.unfriend "alice" "bob")).2.1 =
       (dispatch stC2 9 (some "mallory") 0 (Frame.unfriend "alice" "bob")).2.1) ∧
    (dispatch stC2 9 none 0 (Frame.unfriend "alice" "bob")).2.1 =
      (dispatch stC2 10 (some "carol") 0 (Frame.unfriend "alice" "bob")).2.1 ∧
    (dispatch stC2 9 none 0 (Frame.unfriend "alice" "bob")).2.1 =
      removeFriendRelationship stC2 "alice" "bob" :=
  ⟨C9_actor_taken_from_frame.1 stC2 9 0 (Frame.unfriend "alice" "bob") none
     (some "mallory") (by decide),
   C9_actor_taken_from_frame.2.1 stC2 9 10 0 (Frame.unfriend "alice" "bob") none
     (some "carol") (by decide),
   C9_actor_taken_from_frame.2.2 stC2 9 0 none "alice" "bob"⟩

theorem usersDb_sendOfflineMessages (st : ServerState) (u : String) :
    (sendOfflineMessages st u).2.usersDb = st.usersDb := by
  unfold sendOfflineMessages
  repeat' split
  all_goals rfl

/-- C10: GET_ALL_USERS returns the whole user database to any connection.
(1) For every connection — whatever it authenticated as, or nothing — a
GET_ALL_USERS frame is answered with ALL_USERS_RESPONSE carrying the entire
`users_db` and no state change; (2) registration stores the submitted
record verbatim in `users_db`, including its plaintext `password` field, so
the stored record any later GET_ALL_USERS exposes is exactly the one
submitted. -/
theorem C10_get_all_users_full_db :
    (∀ (st : ServerState) (sock : Nat) (a : Option String) (now : Nat),
       dispatch st sock a now Frame.getAllUsers =
         ([Action.send sock (Wire.plain (Payload.allUsersResponse st.usersDb))], st, a)) ∧
    (∀ (st : ServerState) (sock : Nat) (d : UserData),
       lookupA st.usersDb d.name = none →
       (handleRegister st sock d).2.1.usersDb = insertA st.usersDb d.name d ∧
       lookupA (handleRegister st sock d).2.1.usersDb d.name = some d ∧
       (lookupA (handleRegister st sock d).2.1.usersDb d.name).map UserData.password =
         some d.password) := by
  refine ⟨fun st sock a now => rfl, ?_⟩
  intro st sock d hnone
  have hdb : (handleRegister st sock d).2.1.usersDb = insertA st.usersDb d.name d := by
    unfold handleRegister
    rw [hnone]
    dsimp only
    rw [usersDb_sendOfflineMessages]
  have hlook : lookupA (handleRegister st sock d).2.1.usersDb d.name = some d := by
    rw [hdb, lookupA_insertA, if_pos rfl]
  exact ⟨hdb, hlook, by rw [hlook]; rfl⟩

/-- Record the user carol submits at registration, plaintext password
included; used by the C10 witness. -/
def carolRec : UserData := { name := "carol", password := "hunter2", extra := [] }

/-- Witness for C10: registering carol on a fresh server stores her record,
password "hunter2" included, verbatim in the database that GET_ALL_USERS
then serves to any — even unauthenticated — connection. -/
theorem C10_witness :
    dispatch stC2 9 none 0 Frame.getAllUsers =
      ([Action.send 9 (Wire.plain (Payload.allUsersResponse stC2.usersDb))], stC2, none) ∧
    (handleRegister initialState 4 carolRec).2.1.usersDb =
      insertA initialState.usersDb "carol" carolRec ∧
    lookupA (handleRegister initialState 4 carolRec).2.1.usersDb "carol" = some carolRec ∧
    (lookupA (handleRegister initialState 4 carolRec).2.1.usersDb "carol").map
        UserData.password = some "hunter2" :=
  ⟨C10_get_all_users_full_db.1 stC2 9 none 0,
   C10_get_all_users_full_db.2 initialState 4 carolRec rfl⟩

end ChatApp









